import Mathlib

/-
Verification of the tlspc Terraform provider against its specification.

The Go sources are shallowly embedded: each DTO struct becomes a Lean
structure, each client or reconciler function becomes a total Lean
function.  The HTTP exchange itself is external nondeterminism, so every
embedded operation takes the wire response (status code, raw body, and
the result of json.Unmarshal on that body) as an explicit argument and
returns `Except String` mirroring Go's `(T, error)` convention.
Reconciler operations additionally return the list of API calls they
issued, so that "no HTTP call is made" and "exactly one batched call"
become provable statements about the call trace.

Terraform's `types.String` is embedded as `String`: the sources only
ever consume such values through `ValueString()`, which maps null to "",
so the embedding identifies a field with its `ValueString()` image.
`types.Int32` is likewise embedded as `Int` via `ValueInt32()` (null
maps to 0); no arithmetic is performed on these values, only
comparisons, so the 32-bit range is irrelevant.
-/

set_option autoImplicit false

namespace Tlspc

/-- An HTTP response as the Go client sees it after `io.ReadAll`:
the status code and the raw body bytes (as a string). -/
structure HttpResponse where
  statusCode : Nat
  body : String
deriving Repr, DecidableEq

/-- An HTTP response together with the result of `json.Unmarshal` of its
body into the expected DTO type: `none` models a JSON decode error. -/
structure RestResponse (α : Type) where
  statusCode : Nat
  body : String
  decoded : Option α
deriving Repr, DecidableEq

/-- The Team DTO from internal/tlspc/tlspc.go. -/
structure Team where
  id : String := ""
  name : String := ""
  role : String := ""
  owners : List String := []
  members : List String := []
deriving Repr, DecidableEq

/-- The ServiceAccount DTO from internal/tlspc/tlspc.go.  Fields tagged
`omitempty` in Go are simply zero-valued when absent. -/
structure ServiceAccount where
  id : String := ""
  name : String := ""
  owner : String := ""
  scopes : List String := []
  credentialLifetime : Int := 0
  publicKey : String := ""
  authenticationType : String := ""
  ociAccountName : String := ""
  ociRegistryToken : String := ""
  jwksURI : String := ""
  issuerURL : String := ""
  audience : String := ""
  subject : String := ""
  applications : List String := []
deriving Repr, DecidableEq

/-- Client.CreateTeam, response-validation part (tlspc.go lines 112-139):
decode the response body into a Team and require a non-empty id;
the status code is never examined. -/
def CreateTeam (resp : RestResponse Team) : Except String Team :=
  match resp.decoded with
  | none => .error ("Error decoding response: " ++ resp.body)
  | some created =>
      if created.id = "" then
        .error ("Didn't create a team; response was: " ++ resp.body)
      else
        .ok created

/-- Client.CreateServiceAccount, response-validation part (tlspc.go
lines 313-340): decode into a ServiceAccount and require a non-empty id;
the status code is never examined. -/
def CreateServiceAccount (resp : RestResponse ServiceAccount) :
    Except String ServiceAccount :=
  match resp.decoded with
  | none => .error ("Error decoding response: " ++ resp.body)
  | some created =>
      if created.id = "" then
        .error ("Didn't create a service account; response was: " ++ resp.body)
      else
        .ok created

/-- Client.UpdateServiceAccount (tlspc.go lines 366-390): requires a
non-empty id on the request, then PATCHes and succeeds exactly when the
status code is 204; the response body is never decoded. -/
def UpdateServiceAccount (sa : ServiceAccount) (resp : HttpResponse) :
    Except String Unit :=
  if sa.id = "" then
    .error "Empty ID"
  else if resp.statusCode ≠ 204 then
    .error ("Failed to update Service Account; response was: " ++ resp.body)
  else
    .ok ()

/-- Client.DeleteTeam (tlspc.go lines 278-294): succeeds when the status
code is 204 or 200 (a documented API inconsistency), errors with the
response body otherwise. -/
def DeleteTeam (resp : HttpResponse) : Except String Unit :=
  if resp.statusCode ≠ 204 ∧ resp.statusCode ≠ 200 then
    .error ("Failed to delete team; response was: " ++ resp.body)
  else
    .ok ()

/-- The PolicyDetails wire DTO from internal/tlspc/tlspc.go: one Firefly
policy constraint table as sent to / received from the API. -/
structure PolicyDetails where
  allowedValues : List String
  defaultValues : List String
  maxOccurrences : Int
  minOccurrences : Int
  type : String
deriving Repr, DecidableEq

/-- The provider-side policyModel (registry_account_resource.go): the
planned form of one Firefly policy constraint table. -/
structure policyModel where
  allowedValues : List String
  defaultValues : List String
  maxOccurrences : Int
  minOccurrences : Int
  type : String
deriving Repr, DecidableEq

/-- coercePolicyDetails (registry_account_resource.go lines 528-547):
convert a planned constraint table into the wire DTO.  The Go loops map
`ValueString()` over each element, which is the identity here. -/
def coercePolicyDetails (p : policyModel) : PolicyDetails :=
  { allowedValues := p.allowedValues.map (fun v => v)
    defaultValues := p.defaultValues.map (fun v => v)
    maxOccurrences := p.maxOccurrences
    minOccurrences := p.minOccurrences
    type := p.type }

/-- coercePolicyModel (registry_account_resource.go lines 549-567):
convert a wire constraint table back into the model form.  The Go loops
map `types.StringValue` over each element, the identity here. -/
def coercePolicyModel (p : PolicyDetails) : policyModel :=
  { allowedValues := p.allowedValues.map (fun v => v)
    defaultValues := p.defaultValues.map (fun v => v)
    maxOccurrences := p.maxOccurrences
    minOccurrences := p.minOccurrences
    type := p.type }

/-- The serviceAccountResourceModel from service_account_resource.go:
each terraform field via its `ValueString()` / `ValueInt32()` image. -/
structure serviceAccountResourceModel where
  id : String := ""
  name : String := ""
  owner : String := ""
  scopes : List String := []
  publicKey : String := ""
  credentialLifetime : Int := 0
  jwksURI : String := ""
  issuerURL : String := ""
  audience : String := ""
  subject : String := ""
  applications : List String := []
deriving Repr, DecidableEq

/-- The key-based (agent) group discriminator, exactly the condition of
service_account_resource.go line 133 / 244. -/
def agentConfigured (plan : serviceAccountResourceModel) : Bool :=
  plan.publicKey != "" || decide (0 < plan.credentialLifetime)

/-- The federated (issuer) group discriminator, exactly the condition of
service_account_resource.go line 141 / 252. -/
def issuerConfigured (plan : serviceAccountResourceModel) : Bool :=
  plan.jwksURI != "" || plan.issuerURL != "" || plan.audience != "" ||
    plan.subject != "" || decide (0 < plan.applications.length)

/-- serviceAccountResource.Create, request-building part
(service_account_resource.go lines 120-168): classify the plan into a
variant by which optional fields are populated, or fail with a
configuration error.  Go's early returns become the nested
conditionals. -/
def serviceAccountCreateRequest (plan : serviceAccountResourceModel) :
    Except String ServiceAccount :=
  let scopes := plan.scopes.map (fun v => v)
  let serviceAccount : ServiceAccount :=
    { name := plan.name, owner := plan.owner, scopes := scopes }
  -- Agent type
  let serviceAccount :=
    if agentConfigured plan then
      { serviceAccount with
        publicKey := plan.publicKey
        credentialLifetime := plan.credentialLifetime
        authenticationType := "rsaKey" }
    else serviceAccount
  -- Issuer type
  if issuerConfigured plan then
    if serviceAccount.authenticationType = "rsaKey" then
      .error "Could not create serviceAccount, invalid configuration (both public_key and jwks fields present)"
    else
      .ok { serviceAccount with
            jwksURI := plan.jwksURI
            issuerURL := plan.issuerURL
            audience := plan.audience
            subject := plan.subject
            authenticationType := "rsaKeyFederated"
            applications := plan.applications.map (fun v => v) }
  else if agentConfigured plan then
    .ok serviceAccount
  else
    .error "Could not create serviceAccount, invalid configuration (neither public_key or jwks fields present)"

/-- A network call issued by a service-account-backed reconciler. -/
inductive SACall where
  | createSA (sa : ServiceAccount)
  | updateSA (sa : ServiceAccount)
deriving Repr, DecidableEq

/-- serviceAccountResource.Create (service_account_resource.go lines
113-181): build the request, then issue the one create call; the client
response is external, passed in as `client`.  The second component is
the trace of API calls issued. -/
def serviceAccountResourceCreate (plan : serviceAccountResourceModel)
    (client : ServiceAccount → Except String ServiceAccount) :
    Except String serviceAccountResourceModel × List SACall :=
  match serviceAccountCreateRequest plan with
  | .error e => (.error e, [])
  | .ok sa =>
      match client sa with
      | .error e =>
          (.error ("Could not create serviceAccount, unexpected error: " ++ e),
           [.createSA sa])
      | .ok created => (.ok { plan with id := created.id }, [.createSA sa])

/-- serviceAccountResource.Update, request-building part
(service_account_resource.go lines 230-283).  Identical variant
classification to Create, except that in the federated branch issuerURL
and subject are copied from the plan only when they differ from the
previous state (lines 261-263 and 265-267); jwksURI and audience are
always copied. -/
def serviceAccountUpdateRequest (state plan : serviceAccountResourceModel) :
    Except String ServiceAccount :=
  let scopes := plan.scopes.map (fun v => v)
  let serviceAccount : ServiceAccount :=
    { id := state.id, name := plan.name, owner := plan.owner, scopes := scopes }
  -- Agent type
  let serviceAccount :=
    if agentConfigured plan then
      { serviceAccount with
        publicKey := plan.publicKey
        credentialLifetime := plan.credentialLifetime
        authenticationType := "rsaKey" }
    else serviceAccount
  -- Issuer type
  if issuerConfigured plan then
    if serviceAccount.authenticationType = "rsaKey" then
      .error "Could not create serviceAccount, invalid configuration (both public_key and jwks fields present)"
    else
      let serviceAccount := { serviceAccount with jwksURI := plan.jwksURI }
      let serviceAccount :=
        if state.issuerURL ≠ plan.issuerURL then
          { serviceAccount with issuerURL := plan.issuerURL }
        else serviceAccount
      let serviceAccount := { serviceAccount with audience := plan.audience }
      let serviceAccount :=
        if state.subject ≠ plan.subject then
          { serviceAccount with subject := plan.subject }
        else serviceAccount
      .ok { serviceAccount with
            authenticationType := "rsaKeyFederated"
            applications := plan.applications.map (fun v => v) }
  else if agentConfigured plan then
    .ok serviceAccount
  else
    .error "Could not create serviceAccount, invalid configuration (neither public_key or jwks fields present)"

/-- serviceAccountResource.Update (service_account_resource.go lines
217-296): build the request, then issue the one update call. -/
def serviceAccountResourceUpdate (state plan : serviceAccountResourceModel)
    (client : ServiceAccount → Except String Unit) :
    Except String serviceAccountResourceModel × List SACall :=
  match serviceAccountUpdateRequest state plan with
  | .error e => (.error e, [])
  | .ok sa =>
      match client sa with
      | .error e =>
          (.error ("Could not update serviceAccount, unexpected error: " ++ e),
           [.updateSA sa])
      | .ok _ => (.ok { plan with id := state.id }, [.updateSA sa])

/-- The registryAccountResourceModel from registry_account_resource.go. -/
structure registryAccountResourceModel where
  id : String := ""
  name : String := ""
  owner : String := ""
  scopes : List String := []
  ociAccountName : String := ""
  ociRegistryToken : String := ""
  credentialLifetime : Int := 0
deriving Repr, DecidableEq

/-- registryAccountResource.Create, request-building part
(registry_account_resource.go lines 102-113): the request always
carries authenticationType "ociToken". -/
def registryAccountCreateRequest (plan : registryAccountResourceModel) :
    ServiceAccount :=
  { name := plan.name
    owner := plan.owner
    scopes := plan.scopes.map (fun v => v)
    credentialLifetime := plan.credentialLifetime
    authenticationType := "ociToken" }

/-- registryAccountResource.Update, request-building part
(registry_account_resource.go lines 175-187): again always
authenticationType "ociToken". -/
def registryAccountUpdateRequest (state plan : registryAccountResourceModel) :
    ServiceAccount :=
  { id := state.id
    name := plan.name
    owner := plan.owner
    scopes := plan.scopes.map (fun v => v)
    credentialLifetime := plan.credentialLifetime
    authenticationType := "ociToken" }

/-- The teamResourceModel from team_resource.go. -/
structure teamResourceModel where
  id : String := ""
  name : String := ""
  role : String := ""
  owners : List String := []
deriving Repr, DecidableEq

/-- A network call issued by the team reconciler's Update: the batched
PATCH of name/role (UpdateTeam, tlspc.go lines 170-208), the batched
DELETE of owners (RemoveTeamOwners, lines 246-276), and the batched POST
of owners (AddTeamOwners, lines 214-244). -/
inductive TeamCall where
  | updateTeam (name role : String)
  | removeOwners (owners : List String)
  | addOwners (owners : List String)
deriving Repr, DecidableEq

/-- Modelled from the spec: the team reconciler's Update implementation is
missing from the source tree (team_resource.go holds only an empty stub
for Update), while the client operations it is specified to drive
(AddTeamOwners / RemoveTeamOwners / UpdateTeam, tlspc.go lines 170-276)
are present.  Spec section 4.3: update reconciliation computes the
symmetric difference between the previous owner set and the planned owner
set; owners in previous-but-not-planned go into one batched remove-owners
call, owners in planned-but-not-previous into one batched add-owners
call, unchanged owners trigger no call; name/role are sent via a separate
batched update call only if they actually differ. -/
def teamResourceUpdate (state plan : teamResourceModel) : List TeamCall :=
  (if plan.name ≠ state.name ∨ plan.role ≠ state.role then
    [TeamCall.updateTeam plan.name plan.role]
  else []) ++
  [TeamCall.removeOwners (state.owners.filter (fun o => !plan.owners.contains o)),
   TeamCall.addOwners (plan.owners.filter (fun o => !state.owners.contains o))]

/-- The OwnerAndType DTO from internal/tlspc/tlspc.go. -/
structure OwnerAndType where
  id : String
  type : String
deriving Repr, DecidableEq

/-- One element of the application model's owners set: a two-key string
map with keys "type" and "owner" (application_resource.go schema). -/
structure ownerMap where
  type : String
  owner : String
deriving Repr, DecidableEq

/-- The applicationResourceModel from application_resource.go.  The
certificate-template alias map is embedded as an association list. -/
structure applicationResourceModel where
  id : String := ""
  name : String := ""
  owners : List ownerMap := []
  caTemplateAliases : List (String × String) := []
deriving Repr, DecidableEq

/-- The Application DTO from internal/tlspc/tlspc.go. -/
structure Application where
  id : String := ""
  name : String := ""
  owners : List OwnerAndType := []
  certificateTemplates : List (String × String) := []
  fqdns : List String := []
  internalPorts : List String := []
  ipRanges : List String := []
  ports : List String := []
deriving Repr, DecidableEq

/-- The owner-validation loop repeated verbatim in applicationResource
Create (lines 106-131), Update (lines 222-247) and Delete (lines
293-318): every planned owner must carry type USER or TEAM and a
non-empty id; the first violation aborts with a diagnostic. -/
def coerceOwners : List ownerMap → Except String (List OwnerAndType)
  | [] => .ok []
  | v :: rest =>
      if v.type ≠ "USER" ∧ v.type ≠ "TEAM" then
        .error ("Could not create application, unsupported owner type: " ++ v.type)
      else if v.owner = "" then
        .error "Could not create application, undefined owner"
      else
        match coerceOwners rest with
        | .error e => .error e
        | .ok owners => .ok ({ id := v.owner, type := v.type } :: owners)

/-- A network call issued by the application reconciler. -/
inductive AppCall where
  | createApp (app : Application)
  | updateApp (app : Application)
  | deleteApp (id : String)
deriving Repr, DecidableEq

/-- applicationResource.Create (application_resource.go lines 98-154):
validate owners pre-flight, build the Application, issue the one create
call.  The second component is the trace of API calls issued. -/
def applicationResourceCreate (plan : applicationResourceModel)
    (client : Application → Except String Application) :
    Except String applicationResourceModel × List AppCall :=
  match coerceOwners plan.owners with
  | .error e => (.error e, [])
  | .ok owners =>
      let aliases := plan.caTemplateAliases.map (fun kv => kv)
      let application : Application :=
        { name := plan.name, owners := owners, certificateTemplates := aliases }
      match client application with
      | .error e =>
          (.error ("Could not create application, unexpected error: " ++ e),
           [.createApp application])
      | .ok created => (.ok { plan with id := created.id }, [.createApp application])

/-- applicationResource.Update (application_resource.go lines 209-272):
identical pre-flight validation, then the one update call. -/
def applicationResourceUpdate (state plan : applicationResourceModel)
    (client : Application → Except String Application) :
    Except String applicationResourceModel × List AppCall :=
  match coerceOwners plan.owners with
  | .error e => (.error e, [])
  | .ok owners =>
      let aliases := plan.caTemplateAliases.map (fun kv => kv)
      let application : Application :=
        { id := state.id, name := plan.name, owners := owners
          certificateTemplates := aliases }
      match client application with
      | .error e =>
          (.error ("Could not update application, unexpected error: " ++ e),
           [.updateApp application])
      | .ok updated => (.ok { plan with id := updated.id }, [.updateApp application])

/-- applicationResource.Delete (application_resource.go lines 274-362):
try the direct delete; on any error, re-validate the previous state's
owners, issue an update whose certificate-template alias map is reset to
the empty map (the state's aliases are deliberately not copied, lines
320-325), and, if that update succeeded, resubmit the delete.
`deleteResp n` is the response to the (n+1)-th delete call, `updateResp`
the response to the fallback update. -/
def applicationResourceDelete (state : applicationResourceModel)
    (deleteResp : Nat → Except String Unit)
    (updateResp : Application → Except String Application) :
    Except String Unit × List AppCall :=
  match deleteResp 0 with
  | .ok _ => (.ok (), [.deleteApp state.id])
  | .error _ =>
      match coerceOwners state.owners with
      | .error e => (.error e, [.deleteApp state.id])
      | .ok owners =>
          let application : Application :=
            { id := state.id, name := state.name, owners := owners
              certificateTemplates := [] }
          match updateResp application with
          | .error e =>
              (.error ("Could not update application, unexpected error: " ++ e),
               [.deleteApp state.id, .updateApp application])
          | .ok _ =>
              match deleteResp 1 with
              | .error e =>
                  (.error ("Could not delete Application ID " ++ state.id ++ ": " ++ e),
                   [.deleteApp state.id, .updateApp application, .deleteApp state.id])
              | .ok _ =>
                  (.ok (),
                   [.deleteApp state.id, .updateApp application, .deleteApp state.id])

/-- The GCP part of the union-typed GraphQL cloud-provider configuration
(the CloudProviderGCPConfiguration selection).  ProjectNumber travels as
a string on the wire. -/
structure CloudProviderGCPConfiguration where
  issuerUrl : String
  serviceAccountEmail : String
  projectNumber : String
  workloadIdentityPoolId : String
  workloadIdentityPoolProviderId : String
deriving Repr, DecidableEq

/-- One node of the GCPProviders collection response: id, name, team id
and the union-typed configuration; `none` embeds a configuration of some
other provider kind, on which the Go type assertion fails. -/
structure CloudProviderNode where
  id : String
  name : String
  teamId : String
  configuration : Option CloudProviderGCPConfiguration
deriving Repr, DecidableEq

/-- The CloudProviderGCP struct returned to the reconciler. -/
structure CloudProviderGCP where
  id : String
  issuerUrl : String
  name : String
  team : String
  projectNumber : Int
  serviceAccountEmail : String
  workloadIdentityPoolId : String
  workloadIdentityPoolProviderId : String
deriving Repr, DecidableEq

/-- The digit-run part of strconv.ParseInt: one or more decimal digits,
folded into a Nat. -/
def parseDigits : List Char → Option Nat
  | [] => none
  | ds =>
      if ds.all (fun c => c.isDigit) then
        some (ds.foldl (fun n c => n * 10 + (c.toNat - 48)) 0)
      else none

/-- strconv.ParseInt with base 10, embedded on the string's character
list: an optional sign followed by one or more decimal digits (the
64-bit range check is omitted; no claim exercises it). -/
def parseInt10 (s : String) : Option Int :=
  match s.data with
  | '-' :: ds => (parseDigits ds).map (fun n => -(n : Int))
  | '+' :: ds => (parseDigits ds).map (fun n => (n : Int))
  | ds => (parseDigits ds).map (fun n => (n : Int))

/-- A typed GraphQL operation of the cloud-provider client. -/
inductive GraphQLCall where
  | gcpProviders
  | newGCPProvider
  | updateGCPProvider
  | deleteGCPProvider
deriving Repr, DecidableEq

/-- GetCloudProviderGCP, scan part (GraphQL client source lines
125-158): linear scan of the fetched collection for the first node whose
id matches, then decode its configuration.  Go's strconv.ParseInt on the
project number is embedded as parseInt10. -/
def GetCloudProviderGCP (resp : List CloudProviderNode) (id : String) :
    Except String CloudProviderGCP :=
  match resp.find? (fun v => v.id == id) with
  | none => .error "GCP CloudProvider not found"
  | some found =>
      match found.configuration with
      | none => .error "Expected GCP Configuration not found"
      | some cfg =>
          match parseInt10 cfg.projectNumber with
          | none => .error ("invalid project number: " ++ cfg.projectNumber)
          | some cpn =>
              .ok { id := found.id
                    issuerUrl := cfg.issuerUrl
                    name := found.name
                    team := found.teamId
                    projectNumber := cpn
                    serviceAccountEmail := cfg.serviceAccountEmail
                    workloadIdentityPoolId := cfg.workloadIdentityPoolId
                    workloadIdentityPoolProviderId := cfg.workloadIdentityPoolProviderId }

/-- GetCloudProviderGCP including its network behaviour (lines 114-158):
exactly one GCPProviders query fetching the entire collection is issued,
whether or not the requested id is present; there is no per-id query. -/
def GetCloudProviderGCPRun (fetch : Except String (List CloudProviderNode))
    (id : String) : Except String CloudProviderGCP × List GraphQLCall :=
  match fetch with
  | .error e => (.error e, [.gcpProviders])
  | .ok resp => (GetCloudProviderGCP resp id, [.gcpProviders])

/-- Recognizer for batched remove-owners calls in a team call trace. -/
def isRemoveOwnersCall : TeamCall → Bool
  | .removeOwners _ => true
  | _ => false

/-- Recognizer for batched add-owners calls in a team call trace. -/
def isAddOwnersCall : TeamCall → Bool
  | .addOwners _ => true
  | _ => false

/-- Recognizer for name/role update calls in a team call trace. -/
def isUpdateTeamCall : TeamCall → Bool
  | .updateTeam _ _ => true
  | _ => false

/-- Recognizer for delete calls in an application call trace. -/
def isDeleteAppCall : AppCall → Bool
  | .deleteApp _ => true
  | _ => false

/-- Recognizer for update calls in an application call trace. -/
def isUpdateAppCall : AppCall → Bool
  | .updateApp _ => true
  | _ => false

/-- A planned application owner entry is valid when its type tag is USER
or TEAM and its identifier is non-empty. -/
def validOwner (v : ownerMap) : Prop :=
  (v.type = "USER" ∨ v.type = "TEAM") ∧ v.owner ≠ ""

/-- The fallback update request built by applicationResource.Delete
(lines 293-332) out of the previous state: the alias map is reset to the
empty map, the remaining fields are taken from the previous state. -/
def fallbackApp (state : applicationResourceModel) : Application :=
  { id := state.id
    name := state.name
    owners := state.owners.map (fun v => { id := v.owner, type := v.type })
    certificateTemplates := [] }

/-- A concrete three-provider GCP collection with identifiers x, y, z,
used as a test vector; fields in declaration order (id, name, teamId,
configuration with issuerUrl, serviceAccountEmail, projectNumber,
workloadIdentityPoolId, workloadIdentityPoolProviderId). -/
def exampleNodes : List CloudProviderNode :=
  [⟨"x", "nx", "tx", some ⟨"ix", "sx", "41", "wx", "px"⟩⟩,
   ⟨"y", "ny", "ty", some ⟨"iy", "sy", "42", "wy", "py"⟩⟩,
   ⟨"z", "nz", "tz", some ⟨"iz", "sz", "43", "wz", "pz"⟩⟩]

instance (v : ownerMap) : Decidable (validOwner v) := by
  unfold validOwner
  infer_instance

end Tlspc

namespace Tlspc

theorem coerceOwners_ok_of_valid (l : List ownerMap)
    (h : ∀ v ∈ l, validOwner v) :
    coerceOwners l = .ok (l.map (fun v => { id := v.owner, type := v.type })) := by
  induction l with
  | nil => rfl
  | cons head tail ih =>
      obtain ⟨htype, howner⟩ := h head (List.mem_cons_self head tail)
      have hcond : ¬ (head.type ≠ "USER" ∧ head.type ≠ "TEAM") := by
        rcases htype with h1 | h1 <;> simp [h1]
      rw [coerceOwners, if_neg hcond, if_neg howner,
        ih (fun v hv => h v (List.mem_cons_of_mem head hv))]
      simp

theorem coerceOwners_error_of_bad (l : List ownerMap) (v : ownerMap)
    (hv : v ∈ l) (hbad : ¬ validOwner v) :
    ∃ e, coerceOwners l = .error e := by
  induction l with
  | nil => cases hv
  | cons head tail ih =>
      by_cases hcond : head.type ≠ "USER" ∧ head.type ≠ "TEAM"
      · exact ⟨_, by rw [coerceOwners, if_pos hcond]⟩
      · by_cases hempty : head.owner = ""
        · exact ⟨_, by rw [coerceOwners, if_neg hcond, if_pos hempty]⟩
        · rcases List.mem_cons.mp hv with rfl | hvtail
          · exact absurd ⟨not_and_or.mp hcond |>.elim
              (fun h1 => Or.inl (not_not.mp h1))
              (fun h1 => Or.inr (not_not.mp h1)), hempty⟩ hbad
          · obtain ⟨e, he⟩ := ih hvtail
            refine ⟨e, ?_⟩
            rw [coerceOwners, if_neg hcond, if_neg hempty, he]

theorem serviceAccountCreateRequest_agent (plan : serviceAccountResourceModel)
    (ha : agentConfigured plan = true) (hi : issuerConfigured plan = false) :
    serviceAccountCreateRequest plan = .ok
      { name := plan.name, owner := plan.owner, scopes := plan.scopes
        credentialLifetime := plan.credentialLifetime
        publicKey := plan.publicKey, authenticationType := "rsaKey" } := by
  simp [serviceAccountCreateRequest, ha, hi]

theorem serviceAccountCreateRequest_federated (plan : serviceAccountResourceModel)
    (ha : agentConfigured plan = false) (hi : issuerConfigured plan = true) :
    serviceAccountCreateRequest plan = .ok
      { name := plan.name, owner := plan.owner, scopes := plan.scopes
        jwksURI := plan.jwksURI, issuerURL := plan.issuerURL
        audience := plan.audience, subject := plan.subject
        authenticationType := "rsaKeyFederated"
        applications := plan.applications } := by
  simp [serviceAccountCreateRequest, ha, hi]
  decide

theorem serviceAccountCreateRequest_both (plan : serviceAccountResourceModel)
    (ha : agentConfigured plan = true) (hi : issuerConfigured plan = true) :
    serviceAccountCreateRequest plan =
      .error "Could not create serviceAccount, invalid configuration (both public_key and jwks fields present)" := by
  simp [serviceAccountCreateRequest, ha, hi]

theorem serviceAccountCreateRequest_neither (plan : serviceAccountResourceModel)
    (ha : agentConfigured plan = false) (hi : issuerConfigured plan = false) :
    serviceAccountCreateRequest plan =
      .error "Could not create serviceAccount, invalid configuration (neither public_key or jwks fields present)" := by
  simp [serviceAccountCreateRequest, ha, hi]

theorem serviceAccountUpdateRequest_both (state plan : serviceAccountResourceModel)
    (ha : agentConfigured plan = true) (hi : issuerConfigured plan = true) :
    serviceAccountUpdateRequest state plan =
      .error "Could not create serviceAccount, invalid configuration (both public_key and jwks fields present)" := by
  simp [serviceAccountUpdateRequest, ha, hi]

theorem serviceAccountUpdateRequest_neither (state plan : serviceAccountResourceModel)
    (ha : agentConfigured plan = false) (hi : issuerConfigured plan = false) :
    serviceAccountUpdateRequest state plan =
      .error "Could not create serviceAccount, invalid configuration (neither public_key or jwks fields present)" := by
  simp [serviceAccountUpdateRequest, ha, hi]

theorem serviceAccountUpdateRequest_federated (state plan : serviceAccountResourceModel)
    (ha : agentConfigured plan = false) (hi : issuerConfigured plan = true) :
    serviceAccountUpdateRequest state plan = .ok
      { id := state.id, name := plan.name, owner := plan.owner
        scopes := plan.scopes
        jwksURI := plan.jwksURI
        issuerURL := if state.issuerURL = plan.issuerURL then "" else plan.issuerURL
        audience := plan.audience
        subject := if state.subject = plan.subject then "" else plan.subject
        authenticationType := "rsaKeyFederated"
        applications := plan.applications } := by
  by_cases h1 : state.issuerURL = plan.issuerURL <;>
    by_cases h2 : state.subject = plan.subject <;>
      simp [serviceAccountUpdateRequest, ha, hi, h1, h2] <;> decide

/-- C7: round-trip of one Firefly policy constraint table: converting a
planned table to the wire DTO with coercePolicyDetails and decoding a
server response carrying the same values back with coercePolicyModel
reproduces the table field-for-field (type, min/max occurrences, allowed
and default value sets); coercePolicyModel is a left inverse of
coercePolicyDetails. -/
theorem C7_policy_roundtrip (p : policyModel) :
    coercePolicyModel (coercePolicyDetails p) = p := by
  simp [coercePolicyModel, coercePolicyDetails]

/-- C5: DeleteTeam treats exactly status 200 and 204 as success; every
other status yields an error carrying the response body. -/
theorem C5_delete_team_status (resp : HttpResponse) :
    ((DeleteTeam resp = .ok ()) ↔ (resp.statusCode = 200 ∨ resp.statusCode = 204)) ∧
    (resp.statusCode ≠ 200 → resp.statusCode ≠ 204 →
      DeleteTeam resp = .error ("Failed to delete team; response was: " ++ resp.body)) := by
  constructor
  · by_cases h4 : resp.statusCode = 204 <;> by_cases h0 : resp.statusCode = 200 <;>
      simp [DeleteTeam, h4, h0]
  · intro h0 h4
    simp [DeleteTeam, h4, h0]

/-- Closed instance of C5: status 500 errors with the body, status 200
succeeds. -/
theorem C5_delete_team_status_witness :
    DeleteTeam ⟨500, "boom"⟩ = .error ("Failed to delete team; response was: " ++ "boom") ∧
    DeleteTeam ⟨200, ""⟩ = .ok () :=
  ⟨(C5_delete_team_status ⟨500, "boom"⟩).2 (by decide) (by decide),
   ((C5_delete_team_status ⟨200, ""⟩).1).mpr (Or.inl rfl)⟩

/-- C4 (amended): the create operations (CreateTeam, CreateServiceAccount)
return, for every response whose decoded identifier is empty, an error
carrying the raw response body, with the status code never examined; but
not every REST write validates via a decoded identifier:
UpdateServiceAccount succeeds exactly on status 204, decoding nothing. -/
theorem C4_create_id_validation (rt : RestResponse Team)
    (rs : RestResponse ServiceAccount) (t : Team) (s : ServiceAccount)
    (sa : ServiceAccount) (resp : HttpResponse)
    (ht : rt.decoded = some t) (ht0 : t.id = "")
    (hs : rs.decoded = some s) (hs0 : s.id = "") :
    CreateTeam rt = .error ("Didn't create a team; response was: " ++ rt.body) ∧
    CreateServiceAccount rs =
      .error ("Didn't create a service account; response was: " ++ rs.body) ∧
    (sa.id ≠ "" → ((UpdateServiceAccount sa resp = .ok ()) ↔ resp.statusCode = 204)) := by
  refine ⟨?_, ?_, ?_⟩
  · simp [CreateTeam, ht, ht0]
  · simp [CreateServiceAccount, hs, hs0]
  · intro hsa
    by_cases h : resp.statusCode = 204 <;> simp [UpdateServiceAccount, hsa, h]

/-- Closed instance of C4: a decoded Team with empty id yields the
raw-body error even on status 200, and a 204 PATCH response succeeds. -/
theorem C4_create_id_validation_witness :
    CreateTeam ⟨200, "raw-team", some {}⟩ =
      .error ("Didn't create a team; response was: " ++ "raw-team") ∧
    CreateServiceAccount ⟨200, "raw-sa", some {}⟩ =
      .error ("Didn't create a service account; response was: " ++ "raw-sa") ∧
    UpdateServiceAccount { id := "sa-1" } ⟨204, ""⟩ = .ok () := by
  obtain ⟨h1, h2, h3⟩ :=
    C4_create_id_validation ⟨200, "raw-team", some {}⟩ ⟨200, "raw-sa", some {}⟩
      {} {} { id := "sa-1" } ⟨204, ""⟩ rfl rfl rfl rfl
  exact ⟨h1, h2, (h3 (by decide)).mpr rfl⟩

/-- C4 counterexample: the claim that every REST write operation
validates success by a non-empty identifier in the decoded response is
false: UpdateServiceAccount never decodes its response and returns
success for a bare 204 response whose body is empty, so no identifier
was present anywhere. -/
theorem C4_counterexample :
    UpdateServiceAccount { id := "sa-1" } { statusCode := 204, body := "" } = .ok () := by
  simp [UpdateServiceAccount]

/-- C2: the variant-to-authentication-tag mapping: a plan with only the
key-based group populated produces a create request tagged rsaKey, a
plan with only the federated group populated produces rsaKeyFederated,
and every request built by the registry-account reconciler (create and
update) is tagged ociToken. -/
theorem C2_authentication_tags (plan : serviceAccountResourceModel)
    (rstate rplan : registryAccountResourceModel) :
    (agentConfigured plan = true → issuerConfigured plan = false →
      ∃ sa, serviceAccountCreateRequest plan = .ok sa ∧
        sa.authenticationType = "rsaKey") ∧
    (agentConfigured plan = false → issuerConfigured plan = true →
      ∃ sa, serviceAccountCreateRequest plan = .ok sa ∧
        sa.authenticationType = "rsaKeyFederated") ∧
    (registryAccountCreateRequest rplan).authenticationType = "ociToken" ∧
    (registryAccountUpdateRequest rstate rplan).authenticationType = "ociToken" := by
  refine ⟨?_, ?_, rfl, rfl⟩
  · intro ha hi
    exact ⟨_, serviceAccountCreateRequest_agent plan ha hi, rfl⟩
  · intro ha hi
    exact ⟨_, serviceAccountCreateRequest_federated plan ha hi, rfl⟩

/-- Closed instance of C2: a public-key-only plan is tagged rsaKey and a
jwks-only plan is tagged rsaKeyFederated. -/
theorem C2_authentication_tags_witness :
    (∃ sa, serviceAccountCreateRequest { publicKey := "pk" } = .ok sa ∧
      sa.authenticationType = "rsaKey") ∧
    (∃ sa, serviceAccountCreateRequest { jwksURI := "https://jwks" } = .ok sa ∧
      sa.authenticationType = "rsaKeyFederated") :=
  ⟨(C2_authentication_tags { publicKey := "pk" } {} {}).1 (by decide) (by decide),
   (C2_authentication_tags { jwksURI := "https://jwks" } {} {}).2.1
     (by decide) (by decide)⟩

/-- C1: pre-flight mutual-exclusion gate: when both the key-based and
the federated field group are populated, or when neither is, both Create
and Update of the service-account reconciler return a configuration
error and issue no API call, so no side effect occurs. -/
theorem C1_preflight_validation (state plan : serviceAccountResourceModel)
    (cclient : ServiceAccount → Except String ServiceAccount)
    (uclient : ServiceAccount → Except String Unit) :
    (agentConfigured plan = true → issuerConfigured plan = true →
      (∃ e, (serviceAccountResourceCreate plan cclient).1 = .error e) ∧
      (serviceAccountResourceCreate plan cclient).2 = [] ∧
      (∃ e, (serviceAccountResourceUpdate state plan uclient).1 = .error e) ∧
      (serviceAccountResourceUpdate state plan uclient).2 = []) ∧
    (agentConfigured plan = false → issuerConfigured plan = false →
      (∃ e, (serviceAccountResourceCreate plan cclient).1 = .error e) ∧
      (serviceAccountResourceCreate plan cclient).2 = [] ∧
      (∃ e, (serviceAccountResourceUpdate state plan uclient).1 = .error e) ∧
      (serviceAccountResourceUpdate state plan uclient).2 = []) := by
  constructor
  · intro ha hi
    simp only [serviceAccountResourceCreate, serviceAccountResourceUpdate,
      serviceAccountCreateRequest_both plan ha hi,
      serviceAccountUpdateRequest_both state plan ha hi]
    exact ⟨⟨_, rfl⟩, trivial, ⟨_, rfl⟩, trivial⟩
  · intro ha hi
    simp only [serviceAccountResourceCreate, serviceAccountResourceUpdate,
      serviceAccountCreateRequest_neither plan ha hi,
      serviceAccountUpdateRequest_neither state plan ha hi]
    exact ⟨⟨_, rfl⟩, trivial, ⟨_, rfl⟩, trivial⟩

/-- Closed instance of C1: a plan with both public_key and jwks_uri set
fails Create with an empty call trace, as does a plan with neither group
populated. -/
theorem C1_preflight_validation_witness :
    (∃ e, (serviceAccountResourceCreate { publicKey := "pk", jwksURI := "https://jwks" }
      (fun _ => .error "net")).1 = .error e) ∧
    (serviceAccountResourceCreate { publicKey := "pk", jwksURI := "https://jwks" }
      (fun _ => .error "net")).2 = [] ∧
    (∃ e, (serviceAccountResourceCreate {} (fun _ => .error "net")).1 = .error e) ∧
    (serviceAccountResourceCreate {} (fun _ => .error "net")).2 = [] := by
  obtain ⟨h1, h2, -, -⟩ :=
    (C1_preflight_validation {} { publicKey := "pk", jwksURI := "https://jwks" }
      (fun _ => .error "net") (fun _ => .ok ())).1 (by decide) (by decide)
  obtain ⟨h3, h4, -, -⟩ :=
    (C1_preflight_validation {} {} (fun _ => .error "net") (fun _ => .ok ())).2
      (by decide) (by decide)
  exact ⟨h1, h2, h3, h4⟩

/-- C10: on a federated-variant update, the request carries the planned
issuer_url and subject only when they differ from the previous state's
values (equal values leave the fields empty, hence omitted from the JSON
by omitempty), while jwks_uri and audience are always the planned
values. -/
theorem C10_update_federated_diff (state plan : serviceAccountResourceModel)
    (ha : agentConfigured plan = false) (hi : issuerConfigured plan = true) :
    ∃ sa, serviceAccountUpdateRequest state plan = .ok sa ∧
      sa.jwksURI = plan.jwksURI ∧
      sa.audience = plan.audience ∧
      sa.issuerURL = (if state.issuerURL = plan.issuerURL then "" else plan.issuerURL) ∧
      sa.subject = (if state.subject = plan.subject then "" else plan.subject) :=
  ⟨_, serviceAccountUpdateRequest_federated state plan ha hi, rfl, rfl, rfl, rfl⟩

/-- Closed instance of C10: with an unchanged issuer_url and a changed
subject, the update request omits the issuer_url and carries the new
subject; jwks_uri and audience are the planned values. -/
theorem C10_update_federated_diff_witness :
    ∃ sa, serviceAccountUpdateRequest
        { issuerURL := "https://iss", subject := "sub" }
        { jwksURI := "https://new", issuerURL := "https://iss",
          audience := "aud", subject := "sub2" } = .ok sa ∧
      sa.jwksURI = "https://new" ∧ sa.audience = "aud" ∧
      sa.issuerURL = "" ∧ sa.subject = "sub2" := by
  obtain ⟨sa, hsa, hj, hau, hiss, hsub⟩ :=
    C10_update_federated_diff
      { issuerURL := "https://iss", subject := "sub" }
      { jwksURI := "https://new", issuerURL := "https://iss",
        audience := "aud", subject := "sub2" }
      (by decide) (by decide)
  rw [if_pos rfl] at hiss
  rw [if_neg (by decide)] at hsub
  exact ⟨sa, hsa, hj, hau, hiss, hsub⟩

/-- C3: the team reconciler's Update issues exactly one batched
remove-owners call whose payload is previous-minus-planned, exactly one
batched add-owners call whose payload is planned-minus-previous, zero
update calls when name and role are unchanged, and owners present in
both sets appear in neither payload. -/
theorem C3_team_owner_diff (state plan : teamResourceModel) :
    ((teamResourceUpdate state plan).countP isRemoveOwnersCall = 1) ∧
    ((teamResourceUpdate state plan).countP isAddOwnersCall = 1) ∧
    TeamCall.removeOwners (state.owners.filter (fun o => !plan.owners.contains o))
      ∈ teamResourceUpdate state plan ∧
    TeamCall.addOwners (plan.owners.filter (fun o => !state.owners.contains o))
      ∈ teamResourceUpdate state plan ∧
    (plan.name = state.name → plan.role = state.role →
      (teamResourceUpdate state plan).countP isUpdateTeamCall = 0) ∧
    (∀ x, x ∈ state.owners.filter (fun o => !plan.owners.contains o) ↔
      (x ∈ state.owners ∧ x ∉ plan.owners)) ∧
    (∀ x, x ∈ plan.owners.filter (fun o => !state.owners.contains o) ↔
      (x ∈ plan.owners ∧ x ∉ state.owners)) := by
  refine ⟨?_, ?_, ?_, ?_, ?_, ?_, ?_⟩
  · by_cases h : plan.name ≠ state.name ∨ plan.role ≠ state.role <;>
      simp [teamResourceUpdate, h, isRemoveOwnersCall, isAddOwnersCall, isUpdateTeamCall]
  · by_cases h : plan.name ≠ state.name ∨ plan.role ≠ state.role <;>
      simp [teamResourceUpdate, h, isRemoveOwnersCall, isAddOwnersCall, isUpdateTeamCall]
  · by_cases h : plan.name ≠ state.name ∨ plan.role ≠ state.role <;>
      simp [teamResourceUpdate, h]
  · by_cases h : plan.name ≠ state.name ∨ plan.role ≠ state.role <;>
      simp [teamResourceUpdate, h]
  · intro hn hr
    simp [teamResourceUpdate, hn, hr, isUpdateTeamCall, isRemoveOwnersCall, isAddOwnersCall]
  · intro x
    simp [List.mem_filter]
  · intro x
    simp [List.mem_filter]

/-- Closed instance of C3: previous owners A,B,C and planned owners
B,C,D give one remove call with payload A, one add call with payload D,
and zero update calls since name and role are unchanged. -/
theorem C3_team_owner_diff_witness :
    TeamCall.removeOwners ["A"] ∈ teamResourceUpdate
      { name := "t", role := "r", owners := ["A", "B", "C"] }
      { name := "t", role := "r", owners := ["B", "C", "D"] } ∧
    TeamCall.addOwners ["D"] ∈ teamResourceUpdate
      { name := "t", role := "r", owners := ["A", "B", "C"] }
      { name := "t", role := "r", owners := ["B", "C", "D"] } ∧
    (teamResourceUpdate
      { name := "t", role := "r", owners := ["A", "B", "C"] }
      { name := "t", role := "r", owners := ["B", "C", "D"] }).countP isUpdateTeamCall = 0 ∧
    (teamResourceUpdate
      { name := "t", role := "r", owners := ["A", "B", "C"] }
      { name := "t", role := "r", owners := ["B", "C", "D"] }).countP isRemoveOwnersCall = 1 ∧
    (teamResourceUpdate
      { name := "t", role := "r", owners := ["A", "B", "C"] }
      { name := "t", role := "r", owners := ["B", "C", "D"] }).countP isAddOwnersCall = 1 := by
  obtain ⟨h1, h2, -, -, h5, -, -⟩ := C3_team_owner_diff
    { name := "t", role := "r", owners := ["A", "B", "C"] }
    { name := "t", role := "r", owners := ["B", "C", "D"] }
  exact ⟨by decide, by decide, h5 rfl rfl, h1, h2⟩

/-- C6: GetCloudProviderGCP performs exactly one network fetch of the
entire collection and linearly scans it: a matching identifier returns
that element's decoded configuration, an absent identifier returns a
not-found error, and in neither case is a second network call made. -/
theorem C6_gcp_single_fetch_scan (fetch : Except String (List CloudProviderNode))
    (nodes : List CloudProviderNode) (id : String) :
    (GetCloudProviderGCPRun fetch id).2 = [GraphQLCall.gcpProviders] ∧
    (GetCloudProviderGCPRun (.ok nodes) id).1 = GetCloudProviderGCP nodes id ∧
    (nodes.find? (fun v => v.id == id) = none →
      GetCloudProviderGCP nodes id = .error "GCP CloudProvider not found") ∧
    (∀ found cfg cpn, nodes.find? (fun v => v.id == id) = some found →
      found.configuration = some cfg →
      parseInt10 cfg.projectNumber = some cpn →
      GetCloudProviderGCP nodes id = .ok
        { id := found.id, issuerUrl := cfg.issuerUrl, name := found.name
          team := found.teamId, projectNumber := cpn
          serviceAccountEmail := cfg.serviceAccountEmail
          workloadIdentityPoolId := cfg.workloadIdentityPoolId
          workloadIdentityPoolProviderId := cfg.workloadIdentityPoolProviderId }) := by
  refine ⟨?_, rfl, ?_, ?_⟩
  · cases fetch <;> rfl
  · intro h
    simp [GetCloudProviderGCP, h]
  · intro found cfg cpn h1 h2 h3
    simp [GetCloudProviderGCP, h1, h2, h3]

/-- Closed instance of C6: in the collection with identifiers x, y, z,
looking up y returns its decoded configuration, looking up w returns the
not-found error, and each run issues exactly the one collection
fetch. -/
theorem C6_gcp_single_fetch_scan_witness :
    GetCloudProviderGCP exampleNodes "y" = .ok
      { id := "y", issuerUrl := "iy", name := "ny", team := "ty"
        projectNumber := 42, serviceAccountEmail := "sy"
        workloadIdentityPoolId := "wy", workloadIdentityPoolProviderId := "py" } ∧
    GetCloudProviderGCP exampleNodes "w" = .error "GCP CloudProvider not found" ∧
    (GetCloudProviderGCPRun (.ok exampleNodes) "w").2 = [GraphQLCall.gcpProviders] := by
  refine ⟨?_, ?_, (C6_gcp_single_fetch_scan (.ok exampleNodes) exampleNodes "w").1⟩
  · exact (C6_gcp_single_fetch_scan (.ok exampleNodes) exampleNodes "y").2.2.2
      ⟨"y", "ny", "ty", some ⟨"iy", "sy", "42", "wy", "py"⟩⟩
      ⟨"iy", "sy", "42", "wy", "py"⟩
      42 (by decide) rfl (by decide)
  · exact (C6_gcp_single_fetch_scan (.ok exampleNodes) exampleNodes "w").2.2.1 (by decide)

/-- C9: a planned owner entry with a type tag other than USER or TEAM,
or with an empty identifier, makes Create and Update of the application
reconciler fail before any network call. -/
theorem C9_owner_preflight (state plan : applicationResourceModel)
    (client : Application → Except String Application)
    (v : ownerMap) (hv : v ∈ plan.owners) (hbad : ¬ validOwner v) :
    (∃ e, (applicationResourceCreate plan client).1 = .error e) ∧
    (applicationResourceCreate plan client).2 = [] ∧
    (∃ e, (applicationResourceUpdate state plan client).1 = .error e) ∧
    (applicationResourceUpdate state plan client).2 = [] := by
  obtain ⟨e, he⟩ := coerceOwners_error_of_bad plan.owners v hv hbad
  refine ⟨⟨e, ?_⟩, ?_, ⟨e, ?_⟩, ?_⟩ <;>
    simp [applicationResourceCreate, applicationResourceUpdate, he]

/-- Closed instance of C9: an owner tagged GROUP fails Create with an
empty call trace. -/
theorem C9_owner_preflight_witness :
    (∃ e, (applicationResourceCreate { owners := [{ type := "GROUP", owner := "g" }] }
      (fun a => .ok a)).1 = .error e) ∧
    (applicationResourceCreate { owners := [{ type := "GROUP", owner := "g" }] }
      (fun a => .ok a)).2 = [] := by
  obtain ⟨h1, h2, -, -⟩ := C9_owner_preflight {}
    { owners := [{ type := "GROUP", owner := "g" }] }
    (fun a => .ok a) { type := "GROUP", owner := "g" } (by decide) (by decide)
  exact ⟨h1, h2⟩

/-- C8 (amended): when the direct delete errors and the previous state's
owners are valid, Delete issues exactly one fallback update whose
certificate-template-alias map is empty (id, name and owners taken from
the previous state), and resubmits the delete exactly when that update
succeeds; when the direct delete succeeds, no update call is made. -/
theorem C8_delete_fallback (state : applicationResourceModel)
    (deleteResp : Nat → Except String Unit)
    (updateResp : Application → Except String Application)
    (hvalid : ∀ v ∈ state.owners, validOwner v) :
    (deleteResp 0 = .ok () →
      (applicationResourceDelete state deleteResp updateResp).2 =
        [.deleteApp state.id]) ∧
    (∀ e, deleteResp 0 = .error e →
      (∀ e2, updateResp (fallbackApp state) = .error e2 →
        (applicationResourceDelete state deleteResp updateResp).2 =
          [.deleteApp state.id, .updateApp (fallbackApp state)]) ∧
      (∀ a, updateResp (fallbackApp state) = .ok a →
        (applicationResourceDelete state deleteResp updateResp).2 =
          [.deleteApp state.id, .updateApp (fallbackApp state),
           .deleteApp state.id])) := by
  have hco := coerceOwners_ok_of_valid state.owners hvalid
  constructor
  · intro h0
    simp [applicationResourceDelete, h0]
  · intro e he
    constructor
    · intro e2 hu
      simp only [fallbackApp] at hu
      simp [applicationResourceDelete, he, hco, hu, fallbackApp]
    · intro a hu
      simp only [fallbackApp] at hu
      cases h1 : deleteResp 1 <;>
        simp [applicationResourceDelete, he, hco, hu, h1, fallbackApp]

/-- Closed instance of C8: with a failing direct delete and a succeeding
fallback update, the trace is delete, update-with-empty-alias-map,
delete; with a succeeding direct delete the trace is the single
delete. -/
theorem C8_delete_fallback_witness :
    (applicationResourceDelete
      { id := "app-1", name := "n", owners := [{ type := "USER", owner := "u" }],
        caTemplateAliases := [("alias", "tmpl")] }
      (fun _ => .error "boom") (fun _ => .ok { id := "app-1" })).2 =
      [.deleteApp "app-1",
       .updateApp (fallbackApp
         { id := "app-1", name := "n", owners := [{ type := "USER", owner := "u" }],
           caTemplateAliases := [("alias", "tmpl")] }),
       .deleteApp "app-1"] ∧
    (applicationResourceDelete
      { id := "app-1", name := "n", owners := [{ type := "USER", owner := "u" }],
        caTemplateAliases := [("alias", "tmpl")] }
      (fun _ => .ok ()) (fun _ => .ok { id := "app-1" })).2 =
      [.deleteApp "app-1"] := by
  constructor
  · exact ((C8_delete_fallback
      { id := "app-1", name := "n", owners := [{ type := "USER", owner := "u" }],
        caTemplateAliases := [("alias", "tmpl")] }
      (fun _ => .error "boom") (fun _ => .ok { id := "app-1" })
      (by decide)).2 "boom" rfl).2 { id := "app-1" } rfl
  · exact (C8_delete_fallback
      { id := "app-1", name := "n", owners := [{ type := "USER", owner := "u" }],
        caTemplateAliases := [("alias", "tmpl")] }
      (fun _ => .ok ()) (fun _ => .ok { id := "app-1" })
      (by decide)).1 rfl

/-- C8 counterexample: for a previous state whose direct delete and
fallback update both fail, the reconciler issues the fallback update but
no further delete call (only one delete call appears in the trace), so
the claim that the update is always followed by one further delete call
is false. -/
theorem C8_counterexample :
    (applicationResourceDelete
      { id := "app-1", name := "n", owners := [{ type := "USER", owner := "u" }],
        caTemplateAliases := [("alias", "tmpl")] }
      (fun _ => .error "boom") (fun _ => .error "denied")).2 =
      [.deleteApp "app-1",
       .updateApp { id := "app-1", name := "n",
                    owners := [{ id := "u", type := "USER" }],
                    certificateTemplates := [] }] ∧
    (applicationResourceDelete
      { id := "app-1", name := "n", owners := [{ type := "USER", owner := "u" }],
        caTemplateAliases := [("alias", "tmpl")] }
      (fun _ => .error "boom") (fun _ => .error "denied")).2.countP isDeleteAppCall = 1 := by
  constructor <;> decide

end Tlspc
